import Mathlib

/-!
Verification development for the RAG chat orchestrator implemented in
`src/Snowflake-Cortex Search/frontend code.py` of the Analytx4t repository.

Strings are modelled as `List Char` at the core (one entry per Unicode code
point, matching Python `str` indexing and `len`), with `String`-level wrappers
mirroring the Python function signatures.  The regular-expression scans of the
source are embedded operationally: each `re.search` / `re.findall` / `re.sub`
call-site is translated into a left-to-right scanning function whose behaviour
at every position reproduces the backtracking semantics of the concrete
pattern used there (the patterns are all of a simple lazy/greedy form whose
matches admit a direct characterisation; character classes are taken at their
ASCII meaning, as in the source's patterns).  External collaborators (the
Completion Service, the Retrieval Service, the presigned-URL lookup) are
passed in as function parameters, so every orchestrator function is a pure
function of its inputs and those oracles.
-/

/-- The single-quote character `'` (code point 39), used by the sanitization
`**.replace("'", "")` call-sites of the source. -/
def singleQuote : Char := Char.ofNat 39

/-- Substring test: does `pat` occur contiguously in `s`?  Models Python's
`in` operator on strings. -/
def containsSub (pat : List Char) : List Char → Bool
  | [] => pat.isPrefixOf []
  | c :: cs => pat.isPrefixOf (c :: cs) || containsSub pat cs

/-- ASCII whitespace: the characters matched by the regex class `\s` and
stripped by `str.strip()` (ASCII scope). -/
def isSpaceChar (c : Char) : Bool :=
  c = ' ' || c = '\t' || c = '\n' || c = '\r' || c = Char.ofNat 11 || c = Char.ofNat 12

/-- Python `str.strip()`: remove leading and trailing whitespace. -/
def pyStrip (s : List Char) : List Char :=
  ((s.dropWhile isSpaceChar).reverse.dropWhile isSpaceChar).reverse

/-- The prefix of `s` before the first occurrence of `pat` (all of `s` when
`pat` does not occur).  This is what a lazy `(.*?)` capture followed by
`(?:PAT|\Z)` (or the lookahead form `(?=PAT|\Z)`) consumes under `re.DOTALL`. -/
def takeUntilSub (pat : List Char) : List Char → List Char
  | [] => []
  | c :: cs => if pat.isPrefixOf (c :: cs) then [] else c :: takeUntilSub pat cs

/-- Length of `takeUntilSub pat s` (number of characters consumed by the lazy
capture). -/
def lenUntilSub (pat : List Char) : List Char → Nat
  | [] => 0
  | c :: cs => if pat.isPrefixOf (c :: cs) then 0 else 1 + lenUntilSub pat cs

/-- `re.search(header + r'(.*?)(?:\n\n|\Z)', s, re.DOTALL)`, returning the
group-1 capture of the first match: the text after the first occurrence of the
literal `header`, up to the first `"\n\n"` (or the end of the string). -/
def searchSection (header : List Char) : List Char → Option (List Char)
  | [] => none
  | c :: cs =>
    if header.isPrefixOf (c :: cs) then
      some (takeUntilSub ['\n', '\n'] ((c :: cs).drop header.length))
    else searchSection header cs

/-- Same as `searchSection` for a header written with an optional final
letter, e.g. `Common Issues?:`.  At each scan position the longer spelling
`h1` is preferred (greedy `?`), then the shorter spelling `h2`. -/
def searchSectionOpt (h1 h2 : List Char) : List Char → Option (List Char)
  | [] => none
  | c :: cs =>
    if h1.isPrefixOf (c :: cs) then
      some (takeUntilSub ['\n', '\n'] ((c :: cs).drop h1.length))
    else if h2.isPrefixOf (c :: cs) then
      some (takeUntilSub ['\n', '\n'] ((c :: cs).drop h2.length))
    else searchSectionOpt h1 h2 cs

/-- The lazy tail `(.*?\?)` of the bullet/numbered item patterns (no DOTALL):
the shortest run of non-newline characters ending at a `'?'`, returned with
the `'?'` included; `none` when a newline or the end of the string comes
before any `'?'`. -/
def spanToQ : List Char → Option (List Char)
  | [] => none
  | c :: cs =>
    if c = '?' then some ['?']
    else if c = '\n' then none
    else (spanToQ cs).map (c :: ·)

/-- The tail of the capitalized-sentence patterns after their minimum-length
run: continue over characters of the class `[^.!?]` to the first `'?'`
(returned included); fail on `'.'`, `'!'` or the end of the string. -/
def spanToQClean : List Char → Option (List Char)
  | [] => none
  | c :: cs =>
    if c = '?' then some ['?']
    else if c = '.' || c = '!' then none
    else (spanToQClean cs).map (c :: ·)

/-- The body `[^.!?]{min,}?\?` of the capitalized-sentence patterns: at least
`min` characters of the class `[^.!?]`, lazily extended to the first `'?'`. -/
def capMatch : Nat → List Char → Option (List Char)
  | 0, s => spanToQClean s
  | _ + 1, [] => none
  | n + 1, c :: cs =>
    if c = '.' || c = '!' || c = '?' then none
    else (capMatch n cs).map (c :: ·)

/-- The characters of the bullet class of the source's item pattern (the
literal class `[-‚Ä¢*]` as it appears, byte for byte, in the file:
`-`, U+201A, U+00C4, U+00A2, `*`). -/
def bulletChars : List Char :=
  ['-', Char.ofNat 0x201A, Char.ofNat 0xC4, Char.ofNat 0xA2, '*']

/-- Scanner for `re.findall(r'[-‚Ä¢*]\s*(.*?\?)', s)`.  The first argument is
the number of already-consumed characters still to skip (a successful match
resumes scanning after its end; a failed attempt advances one position). -/
def bulletFindallGo : Nat → List Char → List (List Char)
  | _, [] => []
  | n + 1, _ :: cs => bulletFindallGo n cs
  | 0, c :: cs =>
    if bulletChars.contains c then
      match spanToQ (cs.dropWhile isSpaceChar) with
      | some cap =>
        cap :: bulletFindallGo ((cs.takeWhile isSpaceChar).length + cap.length) cs
      | none => bulletFindallGo 0 cs
    else bulletFindallGo 0 cs

/-- `re.findall(r'[-‚Ä¢*]\s*(.*?\?)', s)`. -/
def bulletFindall (s : List Char) : List (List Char) := bulletFindallGo 0 s

/-- Scanner for `re.findall(r'\d+\.\s*(.*?\?)', s)`: a maximal digit run,
a literal `'.'`, optional whitespace, then the lazy question capture. -/
def numberedFindallGo : Nat → List Char → List (List Char)
  | _, [] => []
  | n + 1, _ :: cs => numberedFindallGo n cs
  | 0, c :: cs =>
    if c.isDigit then
      match cs.dropWhile Char.isDigit with
      | '.' :: rest =>
        match spanToQ (rest.dropWhile isSpaceChar) with
        | some cap =>
          cap :: numberedFindallGo
            ((cs.takeWhile Char.isDigit).length + 1 +
              (rest.takeWhile isSpaceChar).length + cap.length) cs
        | none => numberedFindallGo 0 cs
      | _ => numberedFindallGo 0 cs
    else numberedFindallGo 0 cs

/-- `re.findall(r'\d+\.\s*(.*?\?)', s)`. -/
def numberedFindall (s : List Char) : List (List Char) := numberedFindallGo 0 s

/-- Scanner for the capitalized-sentence patterns
`re.findall(r'([A-Z][^.!?]{min,}?\?)', s)` (the source uses `min = 10` for
the general pass over the response and `[^.!?]*`, i.e. `min = 0`, for the
context fallback; for these patterns greedy `*` and lazy `{10,}?` both match
exactly when the first character of the class `[.!?]` reached after the
minimum run is a `'?'`). -/
def capitalFindallGo (minLen : Nat) : Nat → List Char → List (List Char)
  | _, [] => []
  | n + 1, _ :: cs => capitalFindallGo minLen n cs
  | 0, c :: cs =>
    if c.isUpper then
      match capMatch minLen cs with
      | some cap => (c :: cap) :: capitalFindallGo minLen cap.length cs
      | none => capitalFindallGo minLen 0 cs
    else capitalFindallGo minLen 0 cs

/-- `re.findall(r'([A-Z][^.!?]{10,}?\?)', s)` — the general-question pass. -/
def generalFindall (s : List Char) : List (List Char) := capitalFindallGo 10 0 s

/-- `re.findall(r'([A-Z][^.!?]*\?)', s)` — the context-chunk fallback. -/
def capitalSentenceFindall (s : List Char) : List (List Char) := capitalFindallGo 0 0 s

/-- The substring `"video"` rejected (case-insensitively) by all extraction
filters. -/
def videoChars : List Char := ['v', 'i', 'd', 'e', 'o']

/-- The guard of the common append-filter of all three extraction passes:
the stripped candidate is non-empty, not already collected, contains no
`"video"` in lowercase, and is shorter than 100 characters. -/
def questionOk (qs : List (List Char)) (cq : List Char) : Prop :=
  cq ≠ [] ∧ cq ∉ qs ∧ containsSub videoChars (cq.map Char.toLower) = false ∧ cq.length < 100

instance (qs : List (List Char)) (cq : List Char) : Decidable (questionOk qs cq) := by
  unfold questionOk; infer_instance

/-- One iteration of the filtering loop shared by the three extraction passes:
strip the candidate, then append it when `questionOk` holds. -/
def addQuestion (qs : List (List Char)) (q : List Char) : List (List Char) :=
  let cq := pyStrip q
  if questionOk qs cq then qs ++ [cq] else qs

/-- The six section headers tried (in source order) by the first pass of
`ResponseProcessor.extract_related_questions`. -/
def sectionHeaders : List (List Char) :=
  ["Related Questions:".toList, "Common Issues:".toList,
   "Common Issues and Solutions:".toList, "Scenario-Based Questions:".toList,
   "Follow-up Questions:".toList, "You might also want to know:".toList]

/-- Processing of one explicit-section pattern in the first pass: search the
response for the section, extract bullet and numbered items, and run the
filtering loop; the flag records that some section matched. -/
def sectionStep (response : List Char) (acc : Bool × List (List Char)) (hdr : List Char) :
    Bool × List (List Char) :=
  match searchSection hdr response with
  | some sec => (true, (bulletFindall sec ++ numberedFindall sec).foldl addQuestion acc.2)
  | none => acc

/-- The four context patterns of
`ResponseProcessor._extract_questions_from_context` (long spelling first:
the optional `s?` is greedy). -/
def contextHeaderPairs : List (List Char × List Char) :=
  [("Common Issues:".toList, "Common Issue:".toList),
   ("Scenarios:".toList, "Scenario:".toList),
   ("Use Cases:".toList, "Use Case:".toList),
   ("Common Queries:".toList, "Common Queries:".toList)]

/-- Processing of one context pattern: search the concatenated chunks for the
section, take bullet items (falling back to capitalized sentences when there
are none), and run the filtering loop. -/
def contextStep (combined : List Char) (qs : List (List Char)) (p : List Char × List Char) :
    List (List Char) :=
  match searchSectionOpt p.1 p.2 combined with
  | some sec =>
    (if bulletFindall sec = [] then capitalSentenceFindall sec else bulletFindall sec).foldl
      addQuestion qs
  | none => qs

/-- `ResponseProcessor._extract_questions_from_context`: `chunks` is
`[item.get('chunk', '') for item in context_data.get('results', [])]` when the
context is a dict with a `results` key (`none` models the dict without it, in
which case the pass is a no-op); the chunks are joined with `' '`. -/
def extractFromContext (qs : List (List Char)) (chunks : Option (List (List Char))) :
    List (List Char) :=
  match chunks with
  | none => qs
  | some cs => contextHeaderPairs.foldl (contextStep (List.intercalate [' '] cs)) qs

/-- The body of `ResponseProcessor.extract_related_questions` staged in the
source's order: explicit sections (`sectionStage`, whose flag is
`found_questions`), then the context pass, then the general pass, then
truncation to 4 (`extractCore`). -/
def sectionStage (response : List Char) : Bool × List (List Char) :=
  sectionHeaders.foldl (sectionStep response) (false, [])

/-- The questions collected after the context pass (run exactly when no
explicit section matched or fewer than 3 questions were found so far). -/
def contextStage (response : List Char) (chunks : Option (List (List Char))) :
    List (List Char) :=
  if (sectionStage response).1 = false ∨ (sectionStage response).2.length < 3 then
    extractFromContext (sectionStage response).2 chunks
  else (sectionStage response).2

/-- The questions collected after the general pass (run exactly when still
fewer than 3 questions were found). -/
def generalStage (response : List Char) (chunks : Option (List (List Char))) :
    List (List Char) :=
  if (contextStage response chunks).length < 3 then
    (generalFindall response).foldl addQuestion (contextStage response chunks)
  else contextStage response chunks

/-- Final truncation `questions[:4]`. -/
def extractCore (response : List Char) (chunks : Option (List (List Char))) : List (List Char) :=
  (generalStage response chunks).take 4

/-- One attempt of the hidden-section removal pattern
`(?:\n|\r\n)?HEADER.*?(?=\n\n|\Z)` (DOTALL) at the start of `s`: when it
matches, the total number of characters consumed (the lookahead consumes
nothing).  The optional newline group prefers `\n`, then `\r\n`, then empty. -/
def matchHiddenLen (header : List Char) (s : List Char) : Option Nat :=
  if ('\n' :: header).isPrefixOf s then
    some (1 + header.length + lenUntilSub ['\n', '\n'] (s.drop (1 + header.length)))
  else if ('\r' :: '\n' :: header).isPrefixOf s then
    some (2 + header.length + lenUntilSub ['\n', '\n'] (s.drop (2 + header.length)))
  else if header.isPrefixOf s then
    some (header.length + lenUntilSub ['\n', '\n'] (s.drop header.length))
  else none

/-- `re.sub` of one hidden-section pattern by the empty string: scan left to
right, delete each match, resume after its end. -/
def removeSectionsGo (header : List Char) : Nat → List Char → List Char
  | _, [] => []
  | n + 1, _ :: cs => removeSectionsGo header n cs
  | 0, c :: cs =>
    match matchHiddenLen header (c :: cs) with
    | some k => removeSectionsGo header (k - 1) cs
    | none => c :: removeSectionsGo header 0 cs

/-- The five hidden-section headers removed (in source order) by
`ResponseProcessor.clean_assistant_response`. -/
def removePatternHeaders : List (List Char) :=
  ["Related Questions:".toList, "You might also want to know:".toList,
   "Suggested Questions:".toList, "Common Questions:".toList,
   "Follow-up Questions:".toList]

/-- `re.sub(r'\n{3,}', '\n\n', s)`: each maximal run of three or more
newlines collapses to exactly two. -/
def collapseNewlinesGo : Nat → List Char → List Char
  | _, [] => []
  | n + 1, _ :: cs => collapseNewlinesGo n cs
  | 0, c :: cs =>
    if c = '\n' then
      (if 3 ≤ 1 + (cs.takeWhile (fun x => x == '\n')).length then ['\n', '\n']
       else List.replicate (1 + (cs.takeWhile (fun x => x == '\n')).length) '\n') ++
        collapseNewlinesGo (cs.takeWhile (fun x => x == '\n')).length cs
    else c :: collapseNewlinesGo 0 cs

/-- `ResponseProcessor.clean_assistant_response` (core): remove the five
hidden sections in order, collapse newline runs, strip. -/
def cleanCore (s : List Char) : List Char :=
  pyStrip (collapseNewlinesGo 0
    (removePatternHeaders.foldl (fun acc hdr => removeSectionsGo hdr 0 acc) s))

/-- The lazy URL capture `(.*?)\)` of the video-link pattern: shortest run of
non-newline characters up to a `')'` (excluded). -/
def splitUrl : List Char → Option (List Char)
  | [] => none
  | c :: cs =>
    if c = ')' then some []
    else if c = '\n' then none
    else (splitUrl cs).map (c :: ·)

/-- The captures `(.*?)\]\((.*?)\)` of the video-link pattern, starting just
after the opening `'['`: the title ends at the first `"]("` from which a
`')'`-terminated URL follows (on URL failure the engine backtracks and the
`']'` joins the title); neither capture may cross a newline. -/
def splitLink : List Char → Option (List Char × List Char)
  | [] => none
  | c :: cs =>
    if c = '\n' then none
    else if c = ']' then
      match cs with
      | '(' :: rest =>
        match splitUrl rest with
        | some u => some ([], u)
        | none => (splitLink cs).map (fun tu => (']' :: tu.1, tu.2))
      | _ => (splitLink cs).map (fun tu => (']' :: tu.1, tu.2))
    else (splitLink cs).map (fun tu => (c :: tu.1, tu.2))

/-- The literal head of the video-link pattern `Video Guide:\s*\[...`. -/
def videoGuideHeader : List Char := "Video Guide:".toList

/-- The camera glyph emitted by `replace_video_link`, byte for byte as it
appears in the source f-strings (U+F8FF, U+00FC, U+00EC, U+03C0). -/
def videoGlyph : List Char :=
  [Char.ofNat 0xF8FF, Char.ofNat 0xFC, Char.ofNat 0xEC, Char.ofNat 0x3C0]

/-- The inner `replace_video_link(match)` of
`ResponseProcessor.process_video_links`: keep YouTube URLs, rewrite
`internal_video_path` URLs to a YouTube search built from the title, keep
anything else; in every branch re-emit the title behind the camera glyph. -/
def replace_video_link (title url : List Char) : List Char :=
  let base := fun (u : List Char) =>
    "Video Guide: [".toList ++ videoGlyph ++ [' '] ++ title ++ "](".toList ++ u ++ [')']
  if containsSub "youtube.com".toList url || containsSub "youtu.be".toList url then
    base url
  else if containsSub "internal_video_path".toList url then
    base ("https://www.youtube.com/results?search_query=".toList ++
      title.map (fun c => if c = ' ' then '+' else c) ++
      "+hospital+information+system".toList)
  else base url

/-- One attempt of the pattern `Video Guide:\s*\[(.*?)\]\((.*?)\)` at the
start of `s`: on success, the replacement text and the number of characters
consumed. -/
def tryVideo (s : List Char) : Option (List Char × Nat) :=
  if videoGuideHeader.isPrefixOf s then
    match (s.drop videoGuideHeader.length).dropWhile isSpaceChar with
    | '[' :: rest =>
      match splitLink rest with
      | some tu =>
        some (replace_video_link tu.1 tu.2,
          videoGuideHeader.length +
            ((s.drop videoGuideHeader.length).takeWhile isSpaceChar).length +
            1 + tu.1.length + 2 + tu.2.length + 1)
      | none => none
    | _ => none
  else none

/-- `re.sub(video_pattern, replace_video_link, s)`: scan left to right,
replace each match, resume after its end. -/
def processVideoLinksGo : Nat → List Char → List Char
  | _, [] => []
  | n + 1, _ :: cs => processVideoLinksGo n cs
  | 0, c :: cs =>
    match tryVideo (c :: cs) with
    | some rk => rk.1 ++ processVideoLinksGo (rk.2 - 1) cs
    | none => c :: processVideoLinksGo 0 cs

/-- `ResponseProcessor.process_video_links`. -/
def process_video_links (s : String) : String := (processVideoLinksGo 0 s.toList).asString

/-- `ResponseProcessor.clean_assistant_response`. -/
def clean_assistant_response (s : String) : String := (cleanCore s.toList).asString

/-- The `.replace("'", "")` sanitization applied to the question, the
summary and the response. -/
def stripQuotes (s : String) : String :=
  (s.toList.filter (fun c => c != singleQuote)).asString

/-- One entry of the Retrieval Service's `results` list (the columns the
search service is asked for). -/
structure SearchResult where
  chunk : String
  relative_path : String
  category : String
deriving DecidableEq

/-- The parsed JSON of a retrieval response, as consumed by the extraction
code: a dict that may or may not carry a `results` key. -/
structure ContextData where
  results : Option (List SearchResult)
deriving DecidableEq

/-- `ResponseProcessor.extract_related_questions` on `String`s. -/
def extract_related_questions (response : String) (ctx : ContextData) : List String :=
  (extractCore response.toList
    (ctx.results.map (fun rs => rs.map (fun r => r.chunk.toList)))).map List.asString
/-- Fragment of the create_main_prompt template. -/
def mainPrompt1 : String :=
  "\n        You are a specialized medical assistant designed to assist healthcare providers in extracting and analyzing patient information from medical records, discharge summaries, clinical notes, and external lab reports. Your goal is to provide accurate, concise medical information based solely on the data within the <context> and </context> tags, while considering prior interactions in the <chat_history> and </chat_history> tags.\n        \n        ### Guidelines for Answering\n        - Respond directly to the query using precise medical terminology where appropriate.\n        - Extract and organize patient information from the provided context efficiently.\n        - For queries with multiple clinical questions, address each part separately in clear, labeled sections.\n        - If the query asks for a complete summary (e.g., \"everything in that report\"), provide all available details from the context, organized by categories such as patient demographics, medical history, diagnoses, treatments, procedures, lab results, and clinical notes.\n        - Use bullet points, short paragraphs, or tables for readability, emphasizing key findings, diagnoses, treatments, and recommendations.\n        - If information is missing, state: \"The patient record does not contain information about that specific question.\"\n        - Avoid speculation, external knowledge, or excessive elaboration unless a full summary is requested.\n        \n        ### Patient Context Awareness\n        - Identify the patient in the query and confirm if it matches the context or differs from chat history.\n        - If the query references a new patient (by name, ID, or case), use only the current context for that patient.\n        - If no matching information is found for a queried patient, respond: \"I don‚Äôt have information about that patient in the current records. The information I have is for [current patient name/ID].\"\n        - If patient identity is unclear, note: \"Patient identity is unclear in the context; using available data for [current patient name/ID if determinable].\"\n        - Never mix data from different patients.\n        \n        ### External Lab Reports Integration\n        - Match lab reports to the patient using:\n          * Unique Health ID (UHID) as the primary identifier\n          * Patient name (allow for minor spelling variations)\n          * Age, gender, referring doctor, and test date (if aligned with treatment timeline)\n        - Correlate lab findings with clinical history and current presentation, noting the source (e.g., \"Per external lab report\").\n        - If internal and external lab results conflict, present both clearly, attributing each source.\n        - If lab data is incomplete or unmatchable, state: \"External lab report data is incomplete or does not match the patient reliably.\"\n        \n        ### Response Structure\n        - Confirm the patient identity (name/ID) if available in the context.\n        - Break down complex queries into components and address each in a logical, clinical order.\n        - For comprehensive summary requests (e.g., \"everything in that report\"), structure the response with clear sections:\n          * Patient Demographics: Name, ID, age, gender, etc.\n          * Medical History: Past conditions, surgeries, allergies, etc.\n          * Diagnoses: Current and past diagnoses from the context.\n          * Treatments: Medications, therapies, interventions, etc.\n          * Procedures: Surgeries, interventions, or other procedures.\n          * Lab Results: Internal and external lab findings, with sources.\n          * Clinical Notes: Key observations, progress notes, etc.\n        - Prioritize recent data from the context over older chat history if discrepancies arise.\n        \n        <chat_history>\n        "

/-- Fragment of the create_main_prompt template. -/
def mainPrompt2 : String :=
  "\n        </chat_history>\n        \n        <context>\n        "

/-- Fragment of the create_main_prompt template. -/
def mainPrompt3 : String :=
  "\n        </context>\n        \n        <question>\n        "

/-- Fragment of the create_main_prompt template. -/
def mainPrompt4 : String :=
  "\n        </question>\n        "

/-- One chat transcript entry (`{"role": ..., "content": ...}`). -/
structure Message where
  role : String
  content : String
deriving DecidableEq

/-- The slice of `st.session_state` read and written by one turn of the chat
orchestrator (UI-only fields are omitted). -/
structure SessionState where
  messages : List Message
  suggested_questions : List String
  use_chat_history : Bool
  sliding_window : Int
  model_name : String
  category_value : String
  num_chunks : Nat
deriving DecidableEq

/-- `ChatApp._get_chat_history`: `messages[max(0, len(messages) - W) : len(messages)]`
for the configured sliding window `W`. -/
def get_chat_history (st : SessionState) : List Message :=
  st.messages.drop (max 0 ((st.messages.length : Int) - st.sliding_window)).toNat

/-- The citation set of one turn:
`set(item['relative_path'] for item in json_data['results'])`. -/
def citationSet (results : List SearchResult) : Finset String :=
  (results.map (fun r => r.relative_path)).toFinset

/-- A Python single-quoted rendering of a string (used by the `repr` of the
dict/list values interpolated into the f-string templates; escaping inside the
value is not modelled, the prompt text is consumed opaquely by the
Completion Service oracle). -/
def pyQuoted (s : String) : String := singleQuote.toString ++ s ++ singleQuote.toString

/-- Python `repr` of one history entry. -/
def pyReprMessage (m : Message) : String :=
  "\x7b" ++ pyQuoted "role" ++ ": " ++ pyQuoted m.role ++ ", " ++
    pyQuoted "content" ++ ": " ++ pyQuoted m.content ++ "\x7d"

/-- Python `repr` of the history list, as interpolated by `{chat_history}`. -/
def pyReprHistory (ms : List Message) : String :=
  "[" ++ String.intercalate ", " (ms.map pyReprMessage) ++ "]"

/-- Python `repr` of one retrieval result dict. -/
def pyReprResult (r : SearchResult) : String :=
  "\x7b" ++ pyQuoted "chunk" ++ ": " ++ pyQuoted r.chunk ++ ", " ++
    pyQuoted "relative_path" ++ ": " ++ pyQuoted r.relative_path ++ ", " ++
    pyQuoted "category" ++ ": " ++ pyQuoted r.category ++ "\x7d"

/-- Python `repr` of the retrieval response dict, as interpolated by
`{prompt_context}`. -/
def pyReprContext (ctx : ContextData) : String :=
  match ctx.results with
  | none => "\x7b\x7d"
  | some rs =>
    "\x7b" ++ pyQuoted "results" ++ ": [" ++
      String.intercalate ", " (rs.map pyReprResult) ++ "]\x7d"

/-- `PromptBuilder.create_chat_summary_prompt`. -/
def create_chat_summary_prompt (chat_history : List Message) (question : String) : String :=
  "\n        Based on the chat history below and the question, generate a query that extend the question\n        with the chat history provided. The query should be in natual language. \n        Answer with only the query. Do not add any explanation.\n        \n        <chat_history>\n        " ++
    pyReprHistory chat_history ++
    "\n        </chat_history>\n        <question>\n        " ++ question ++
    "\n        </question>"

/-- `PromptBuilder.create_main_prompt`. -/
def create_main_prompt (question : String) (chat_history : List Message)
    (prompt_context : ContextData) : String :=
  mainPrompt1 ++ pyReprHistory chat_history ++ mainPrompt2 ++
    pyReprContext prompt_context ++ mainPrompt3 ++ question ++ mainPrompt4

/-- What `ChatApp._create_prompt` produces, with the turn's externally
observable retrieval behaviour made explicit: `retrieval_query` is the query
string handed to `SnowflakeService.search_similar_chunks`, and
`reformulator_invoked` records whether `_summarize_conversation` (the
conversation-summary completion call) ran. -/
structure PromptResult where
  prompt : String
  relative_paths : Finset String
  context_data : ContextData
  retrieval_query : String
  reformulator_invoked : Bool

/-- `ChatApp._summarize_conversation`: one Completion Service call on the
summary template, single quotes stripped from its result. -/
def summarize_conversation (llm : String → String → String) (st : SessionState)
    (chat_history : List Message) (question : String) : String :=
  stripQuotes (llm st.model_name (create_chat_summary_prompt chat_history question))

/-- `ChatApp._create_prompt`.  `llm model prompt` is the Completion Service;
`search query category limit` is the Retrieval Service, returning the
`results` list of the response JSON. -/
def create_prompt (llm : String → String → String)
    (search : String → String → Nat → List SearchResult)
    (st : SessionState) (question : String) : PromptResult :=
  if st.use_chat_history ∧ 0 < st.messages.length then
    let chat_history := get_chat_history st
    if chat_history ≠ [] then
      let summary := summarize_conversation llm st chat_history question
      let results := search summary st.category_value st.num_chunks
      { prompt := create_main_prompt question chat_history ⟨some results⟩,
        relative_paths := citationSet results,
        context_data := ⟨some results⟩,
        retrieval_query := summary,
        reformulator_invoked := true }
    else
      let results := search question st.category_value st.num_chunks
      { prompt := create_main_prompt question chat_history ⟨some results⟩,
        relative_paths := citationSet results,
        context_data := ⟨some results⟩,
        retrieval_query := question,
        reformulator_invoked := false }
  else
    let results := search question st.category_value st.num_chunks
    { prompt := create_main_prompt question [] ⟨some results⟩,
      relative_paths := citationSet results,
      context_data := ⟨some results⟩,
      retrieval_query := question,
      reformulator_invoked := false }

/-- The externally observable output of `ChatApp._process_user_input`. -/
structure TurnOutput where
  response : String
  relative_paths : Finset String
  context_data : ContextData
  retrieval_query : String
  reformulator_invoked : Bool

/-- `ChatApp._process_user_input`: sanitize the question, build the prompt,
complete, rewrite video links, sanitize the response, extract suggestions and
overwrite the suggestion state when any were found. -/
def process_user_input (llm : String → String → String)
    (search : String → String → Nat → List SearchResult)
    (st : SessionState) (question : String) : TurnOutput × SessionState :=
  let question := stripQuotes question
  let pr := create_prompt llm search st question
  let response := stripQuotes (process_video_links (llm st.model_name pr.prompt))
  let new_questions := extract_related_questions response pr.context_data
  (⟨response, pr.relative_paths, pr.context_data, pr.retrieval_query, pr.reformulator_invoked⟩,
    if new_questions ≠ [] then { st with suggested_questions := new_questions } else st)

/-- One full turn as driven by `ChatApp._handle_user_input` /
`ChatApp._process_question`: the user message is appended to the transcript
BEFORE `_process_user_input` runs, and the (sanitized) assistant response is
appended after. -/
def handleTurn (llm : String → String → String)
    (search : String → String → Nat → List SearchResult)
    (st : SessionState) (question : String) : SessionState × TurnOutput :=
  let st1 : SessionState := { st with messages := st.messages ++ [⟨"User", question⟩] }
  let pr := process_user_input llm search st1 question
  ({ pr.2 with messages := pr.2.messages ++ [⟨"assistant", pr.1.response⟩] }, pr.1)

/-- `SnowflakeService.get_document_url`: the body of the `try` block (context
switch, `GET_PRESIGNED_URL` query, dataframe access) is the oracle `lookup`;
on any failure the method reports a display-only error and returns `"#"`.
The second component is the `st.error` message displayed (`none` on
success). -/
def get_document_url (lookup : String → Except String String) (path : String) :
    String × Option String :=
  match lookup path with
  | Except.ok url => (url, none)
  | Except.error e => ("#", some ("Error generating URL for " ++ path ++ ": " ++ e))

/-- Invariant maintained by the shared filtering loop of the extraction
passes: no duplicates, and every collected question passes the video and
length filters. -/
def InvQ (qs : List (List Char)) : Prop :=
  qs.Nodup ∧ ∀ q ∈ qs, containsSub videoChars (q.map Char.toLower) = false ∧ q.length < 100

theorem addQuestion_inv {qs : List (List Char)} {q : List Char} (h : InvQ qs) :
    InvQ (addQuestion qs q) := by
  show InvQ (if questionOk qs (pyStrip q) then qs ++ [pyStrip q] else qs)
  by_cases hc : questionOk qs (pyStrip q)
  · rw [if_pos hc]
    obtain ⟨hne, hmem, hvid, hlen⟩ := hc
    constructor
    · exact h.1.append (List.nodup_singleton _)
        (List.disjoint_left.mpr (fun a ha hb => hmem (by rwa [List.mem_singleton.mp hb] at ha)))
    · intro x hx
      rcases List.mem_append.mp hx with hx | hx
      · exact h.2 x hx
      · rw [List.mem_singleton.mp hx]; exact ⟨hvid, hlen⟩
  · rwa [if_neg hc]

theorem foldl_addQuestion_inv (l : List (List Char)) :
    ∀ qs, InvQ qs → InvQ (l.foldl addQuestion qs) := by
  induction l with
  | nil => exact fun qs h => h
  | cons a t ih => exact fun qs h => ih _ (addQuestion_inv h)

theorem sectionFold_inv (r : List Char) (hs : List (List Char)) :
    ∀ acc : Bool × List (List Char), InvQ acc.2 →
      InvQ ((hs.foldl (sectionStep r) acc).2) := by
  induction hs with
  | nil => exact fun acc h => h
  | cons a t ih =>
    intro acc h
    apply ih
    unfold sectionStep
    cases searchSection a r with
    | none => exact h
    | some sec => exact foldl_addQuestion_inv _ _ h

theorem contextFold_inv (combined : List Char) (ps : List (List Char × List Char)) :
    ∀ qs, InvQ qs → InvQ (ps.foldl (contextStep combined) qs) := by
  induction ps with
  | nil => exact fun qs h => h
  | cons a t ih =>
    intro qs h
    apply ih
    unfold contextStep
    cases searchSectionOpt a.1 a.2 combined with
    | none => exact h
    | some sec => exact foldl_addQuestion_inv _ _ h

theorem extractFromContext_inv {qs : List (List Char)} (ch : Option (List (List Char)))
    (h : InvQ qs) : InvQ (extractFromContext qs ch) := by
  unfold extractFromContext
  cases ch with
  | none => exact h
  | some cs => exact contextFold_inv _ _ _ h

theorem sectionStage_inv (r : List Char) : InvQ (sectionStage r).2 :=
  sectionFold_inv r sectionHeaders (false, []) ⟨List.nodup_nil, by simp⟩

theorem contextStage_inv (r : List Char) (ch : Option (List (List Char))) :
    InvQ (contextStage r ch) := by
  unfold contextStage
  split
  · exact extractFromContext_inv ch (sectionStage_inv r)
  · exact sectionStage_inv r

theorem generalStage_inv (r : List Char) (ch : Option (List (List Char))) :
    InvQ (generalStage r ch) := by
  unfold generalStage
  split
  · exact foldl_addQuestion_inv _ _ (contextStage_inv r ch)
  · exact contextStage_inv r ch

theorem extractCore_inv (r : List Char) (ch : Option (List (List Char))) :
    InvQ (extractCore r ch) ∧ (extractCore r ch).length ≤ 4 := by
  refine ⟨⟨?_, ?_⟩, ?_⟩
  · exact ((List.take_sublist 4 _).nodup (generalStage_inv r ch).1)
  · exact fun q hq => (generalStage_inv r ch).2 q (List.take_subset 4 _ hq)
  · simp [extractCore]

theorem asString_injective : Function.Injective List.asString :=
  fun _ _ h => congrArg String.data h

theorem extract_related_questions_length_le (response : String) (ctx : ContextData) :
    (extract_related_questions response ctx).length ≤ 4 := by
  unfold extract_related_questions
  rw [List.length_map]
  exact (extractCore_inv _ _).2

/-- Claim C1: for every input response string and every context data,
`extract_related_questions` returns at most 4 items, none containing the
substring "video" case-insensitively, none of length 100 or more, with no
duplicates (dedup by exact string match; discovery order is preserved by the
append-only construction of the filtering loop `addQuestion`). -/
theorem C1_extract_related_questions_bounds (response : String) (ctx : ContextData) :
    (extract_related_questions response ctx).length ≤ 4 ∧
    (extract_related_questions response ctx).Nodup ∧
    (extract_related_questions response ctx).all
      (fun q => !containsSub videoChars (q.toList.map Char.toLower) &&
        decide (q.length < 100)) = true := by
  obtain ⟨⟨hnd, hok⟩, -⟩ :=
    extractCore_inv response.toList (ctx.results.map (fun rs => rs.map (fun r => r.chunk.toList)))
  refine ⟨extract_related_questions_length_le response ctx, ?_, ?_⟩
  · exact hnd.map asString_injective
  · rw [List.all_eq_true]
    intro q hq
    rcases List.mem_map.mp hq with ⟨l, hl, rfl⟩
    obtain ⟨hvid, hlen⟩ := hok l hl
    have h1 : (List.asString l).toList = l := rfl
    have h2 : (List.asString l).length = l.length := rfl
    rw [Bool.and_eq_true, Bool.not_eq_true', h1, h2]
    exact ⟨hvid, decide_eq_true hlen⟩

/-- A concrete markdown video link before any rewriting. -/
def videoLinkInput : String := "Video Guide: [T](https://youtube.com/w)"

/-- Claim C2, counterexample: `process_video_links` is NOT idempotent.  The
string `process_video_links videoLinkInput` is an output of one application of
the transform, yet applying the transform to it changes it again (the pattern
re-matches the rewritten link and prepends a second camera glyph to the
title). -/
theorem C2_video_rewrite_not_idempotent :
    process_video_links (process_video_links videoLinkInput) ≠
      process_video_links videoLinkInput := by decide

/-- Claim C2, amended: video-link rewriting is not idempotent; re-applying the
transform to an already-rewritten link leaves the URL unchanged but prepends
one more camera glyph to the title: one application of the transform to
`videoLinkInput` yields the glyphed link, and a second application yields the
doubly-glyphed link. -/
theorem C2_video_rewrite_second_application :
    process_video_links videoLinkInput =
      ("Video Guide: [".toList ++ videoGlyph ++ " T](https://youtube.com/w)".toList).asString ∧
    process_video_links (process_video_links videoLinkInput) =
      ("Video Guide: [".toList ++ videoGlyph ++ [' '] ++ videoGlyph ++
        " T](https://youtube.com/w)".toList).asString := by
  exact ⟨by decide, by decide⟩

/-- The response text of the concrete scenario of Claim C3. -/
def resp3 : String := "Answer.\n\nRelated Questions:\n- Q1?\n- Q2?\n\n"

/-- An empty retrieval context (a results dict with no hits). -/
def emptyContext : ContextData := ⟨some []⟩

/-- Claim C3, counterexample: on `resp3` with empty retrieval context the
extraction does NOT return exactly `["Q1?", "Q2?"]` (only 2 questions come
from the explicit section, so the general pass also runs and captures the
header line as a third "question"). -/
theorem C3_extraction_not_exactly_two :
    extract_related_questions resp3 emptyContext ≠ ["Q1?", "Q2?"] := by decide

/-- Claim C3, amended: the display-cleaning transform returns exactly
"Answer.", and the extraction returns `["Q1?", "Q2?"]` PLUS a third item
"Related Questions:\n- Q1?" contributed by the general capitalized-sentence
fallback (which runs because fewer than 3 questions were found). -/
theorem C3_clean_and_extract_values :
    clean_assistant_response resp3 = "Answer." ∧
    extract_related_questions resp3 emptyContext =
      ["Q1?", "Q2?", "Related Questions:\n- Q1?"] := by
  exact ⟨by decide, by decide⟩

/-- Claim C4: the history window is `messages[max(0, len - W):]`; it is empty
for every `W ≤ 0` and the whole transcript for every `W ≥ len`. -/
theorem C4_chat_history_window (st : SessionState) :
    (st.sliding_window ≤ 0 → get_chat_history st = []) ∧
    ((st.messages.length : Int) ≤ st.sliding_window → get_chat_history st = st.messages) ∧
    get_chat_history st =
      st.messages.drop (max 0 ((st.messages.length : Int) - st.sliding_window)).toNat := by
  refine ⟨?_, ?_, rfl⟩
  · intro h
    apply List.drop_eq_nil_of_le
    omega
  · intro h
    have h0 : (max 0 ((st.messages.length : Int) - st.sliding_window)).toNat = 0 := by omega
    unfold get_chat_history
    rw [h0, List.drop_zero]

/-- A one-message transcript used by concrete instances. -/
def msgHi : Message := ⟨"User", "hi"⟩

/-- A session whose sliding window is 0. -/
def stWin0 : SessionState := ⟨[msgHi], [], true, 0, "llama3.3-70b", "ALL", 10⟩

/-- A session whose sliding window exceeds its transcript length. -/
def stWin9 : SessionState := ⟨[msgHi], [], true, 9, "llama3.3-70b", "ALL", 10⟩

/-- Witness for Claim C4: both implications applied at concrete windows. -/
theorem C4_chat_history_window_witness :
    get_chat_history stWin0 = [] ∧ get_chat_history stWin9 = stWin9.messages :=
  ⟨(C4_chat_history_window stWin0).1 (by decide),
   (C4_chat_history_window stWin9).2.1 (by decide)⟩

/-- A Completion Service oracle that always answers with the same text. -/
def llmConst (out : String) : String → String → String := fun _ _ => out

/-- A Retrieval Service oracle that always returns no results. -/
def searchNone : String → String → Nat → List SearchResult := fun _ _ _ => []

/-- A fresh session: empty transcript, history use enabled, window 7. -/
def stEmpty : SessionState := ⟨[], ["q0?"], true, 7, "llama3.3-70b", "ALL", 10⟩

/-- Claim C5, counterexample: the transcript is empty at the start of the
turn, yet the turn flow appends the user message to the transcript BEFORE
building the prompt, so the reformulator (summary completion) IS invoked and
the retrieval query is its (sanitized) output, not the raw question "Q". -/
theorem C5_reformulator_runs_on_first_turn :
    stEmpty.messages = [] ∧
    (handleTurn (llmConst "S") searchNone stEmpty "Q").2.reformulator_invoked = true ∧
    (handleTurn (llmConst "S") searchNone stEmpty "Q").2.retrieval_query ≠ "Q" := by
  refine ⟨rfl, by decide, by decide⟩

/-- Claim C5, amended: the raw-question retrieval path exists at the
prompt-construction level: whenever chat-history use is disabled, or the
message list is empty, or its sliding window is empty at the time
`create_prompt` runs, the reformulator is not invoked and the retrieval query
is exactly the question `create_prompt` was given.  (In the full turn flow the
user message is appended to the transcript first, so a turn that starts from
an empty transcript still invokes the reformulator.) -/
theorem C5_raw_query_paths (llm : String → String → String)
    (search : String → String → Nat → List SearchResult)
    (st : SessionState) (q : String)
    (h : st.use_chat_history = false ∨ st.messages = [] ∨ get_chat_history st = []) :
    (create_prompt llm search st q).reformulator_invoked = false ∧
    (create_prompt llm search st q).retrieval_query = q := by
  unfold create_prompt
  rcases h with h | h | h
  · simp [h]
  · simp [h]
  · by_cases hb : (st.use_chat_history : Prop) ∧ 0 < st.messages.length
    · simp [hb, h]
    · simp [hb]

/-- A session with history use disabled. -/
def stNoHist : SessionState := ⟨[msgHi], [], false, 7, "llama3.3-70b", "ALL", 10⟩

/-- Witness for Claim C5 (amended): with history use disabled the retrieval
query is the question verbatim and no reformulation happens. -/
theorem C5_raw_query_paths_witness :
    (create_prompt (llmConst "S") searchNone stNoHist "Q").reformulator_invoked = false ∧
    (create_prompt (llmConst "S") searchNone stNoHist "Q").retrieval_query = "Q" :=
  C5_raw_query_paths (llmConst "S") searchNone stNoHist "Q" (Or.inl rfl)

theorem process_user_input_suggestions (llm : String → String → String)
    (search : String → String → Nat → List SearchResult)
    (st : SessionState) (q : String) :
    (process_user_input llm search st q).2.suggested_questions =
      if extract_related_questions (process_user_input llm search st q).1.response
          (process_user_input llm search st q).1.context_data = []
      then st.suggested_questions
      else extract_related_questions (process_user_input llm search st q).1.response
          (process_user_input llm search st q).1.context_data := by
  unfold process_user_input
  dsimp only
  split
  · rfl
  · rename_i h
    rw [if_pos (not_not.mp h)]

theorem handleTurn_suggestions (llm : String → String → String)
    (search : String → String → Nat → List SearchResult)
    (st : SessionState) (q : String) :
    (handleTurn llm search st q).1.suggested_questions =
      if extract_related_questions (handleTurn llm search st q).2.response
          (handleTurn llm search st q).2.context_data = []
      then st.suggested_questions
      else extract_related_questions (handleTurn llm search st q).2.response
          (handleTurn llm search st q).2.context_data :=
  process_user_input_suggestions llm search
    { st with messages := st.messages ++ [⟨"User", q⟩] } q

/-- A session carrying one leftover suggestion. -/
def stSuggA : SessionState := ⟨[], ["A?"], true, 7, "llama3.3-70b", "ALL", 10⟩

/-- Claim C6, counterexample: a turn whose response yields no extractable
question ("ok") leaves the previous suggestion set ["A?"] in place, so the
session's set is NOT replaced by the (empty) list extracted from that turn's
response. -/
theorem C6_suggestions_kept_on_empty_extraction :
    (handleTurn (llmConst "ok") searchNone stSuggA "Q").1.suggested_questions = ["A?"] ∧
    extract_related_questions (handleTurn (llmConst "ok") searchNone stSuggA "Q").2.response
      (handleTurn (llmConst "ok") searchNone stSuggA "Q").2.context_data = [] := by
  refine ⟨by decide, by decide⟩

/-- Claim C6, amended: whenever a turn's extraction is nonempty the session's
suggestion set is replaced wholesale by it (never appended to), and the
at-most-4 bound is preserved across every turn (extraction returns at most 4
items, and when nothing is extracted the previous, already-bounded set is
kept). -/
theorem C6_suggestions_replaced_wholesale (llm : String → String → String)
    (search : String → String → Nat → List SearchResult)
    (st : SessionState) (q : String) :
    (extract_related_questions (handleTurn llm search st q).2.response
        (handleTurn llm search st q).2.context_data ≠ [] →
      (handleTurn llm search st q).1.suggested_questions =
        extract_related_questions (handleTurn llm search st q).2.response
          (handleTurn llm search st q).2.context_data) ∧
    (st.suggested_questions.length ≤ 4 →
      (handleTurn llm search st q).1.suggested_questions.length ≤ 4) := by
  constructor
  · intro h
    rw [handleTurn_suggestions, if_neg h]
  · intro h4
    rw [handleTurn_suggestions]
    split
    · exact h4
    · exact extract_related_questions_length_le _ _

/-- A session carrying one leftover suggestion (instance for the C6 witness). -/
def stSuggB : SessionState := ⟨[], ["B?"], true, 7, "llama3.3-70b", "ALL", 10⟩

/-- A Completion Service oracle answering with a question-bearing sentence. -/
def llmAsks : String → String → String := llmConst "Is this a question that works?"

/-- Witness for Claim C6 (amended): a turn with a nonempty extraction
replaces the suggestion set wholesale. -/
theorem C6_suggestions_replaced_wholesale_witness :
    (handleTurn llmAsks searchNone stSuggB "Q").1.suggested_questions =
      extract_related_questions (handleTurn llmAsks searchNone stSuggB "Q").2.response
        (handleTurn llmAsks searchNone stSuggB "Q").2.context_data :=
  (C6_suggestions_replaced_wholesale llmAsks searchNone stSuggB "Q").1 (by decide)

theorem stripQuotes_no_single_quote (s : String) : singleQuote ∉ (stripQuotes s).toList := by
  intro h
  have h' : singleQuote ∈ s.toList.filter (fun c => c != singleQuote) := h
  rcases List.mem_filter.mp h' with ⟨-, hq⟩
  simp at hq

theorem create_prompt_query_no_quote (llm : String → String → String)
    (search : String → String → Nat → List SearchResult)
    (st : SessionState) (q : String) :
    singleQuote ∉ (create_prompt llm search st (stripQuotes q)).retrieval_query.toList := by
  unfold create_prompt summarize_conversation
  dsimp only
  split
  · split
    · exact stripQuotes_no_single_quote _
    · exact stripQuotes_no_single_quote q
  · exact stripQuotes_no_single_quote q

/-- Claim C7: on every turn, the retrieval query sent onward (reformulated or
raw) and the final assistant response (as returned, stored in the transcript
and fed to extraction) contain no single-quote character: `'` is stripped
unconditionally. -/
theorem C7_single_quotes_stripped (llm : String → String → String)
    (search : String → String → Nat → List SearchResult)
    (st : SessionState) (q : String) :
    singleQuote ∉ (handleTurn llm search st q).2.retrieval_query.toList ∧
    singleQuote ∉ (handleTurn llm search st q).2.response.toList := by
  constructor
  · exact create_prompt_query_no_quote llm search
      { st with messages := st.messages ++ [⟨"User", q⟩] } q
  · exact stripQuotes_no_single_quote _

/-- The three-passage retrieval example of Claim C8 (duplicate paths). -/
def resultA : SearchResult := ⟨"c1", "a.pdf", "x"⟩

/-- Second passage of the C8 example, same document as `resultA`. -/
def resultA2 : SearchResult := ⟨"c2", "a.pdf", "y"⟩

/-- Third passage of the C8 example, a different document. -/
def resultB : SearchResult := ⟨"c3", "b.pdf", "z"⟩

/-- Claim C8: the citation set of a turn is the order-independent set of the
distinct `relative_path` values of the retrieval results; duplicates collapse,
and on the example `[a.pdf, a.pdf, b.pdf]` it is exactly `{a.pdf, b.pdf}`. -/
theorem C8_citation_set_distinct_paths :
    (∀ (results : List SearchResult) (p : String),
        p ∈ citationSet results ↔ p ∈ results.map (fun r => r.relative_path)) ∧
    (∀ l₁ l₂ : List SearchResult, l₁.Perm l₂ → citationSet l₁ = citationSet l₂) ∧
    citationSet [resultA, resultA2, resultB] = {"a.pdf", "b.pdf"} := by
  refine ⟨?_, ?_, ?_⟩
  · intro results p
    exact List.mem_toFinset
  · intro l₁ l₂ hp
    apply Finset.ext
    intro p
    simp only [citationSet, List.mem_toFinset]
    exact (hp.map (fun r => r.relative_path)).mem_iff
  · decide

/-- Witness for Claim C8: order-independence applied to a concrete swap. -/
theorem C8_citation_set_distinct_paths_witness :
    citationSet [resultA, resultB] = citationSet [resultB, resultA] :=
  C8_citation_set_distinct_paths.2.1 [resultA, resultB] [resultB, resultA]
    (List.Perm.swap resultB resultA [])

/-- Claim C9: when a turn's extraction returns the empty list, the previous
suggestion set is left completely unchanged. -/
theorem C9_suggestions_frame_on_empty_extraction (llm : String → String → String)
    (search : String → String → Nat → List SearchResult)
    (st : SessionState) (q : String)
    (h : extract_related_questions (handleTurn llm search st q).2.response
        (handleTurn llm search st q).2.context_data = []) :
    (handleTurn llm search st q).1.suggested_questions = st.suggested_questions := by
  rw [handleTurn_suggestions, if_pos h]

/-- A session carrying one leftover suggestion (instance for the C9 witness). -/
def stSuggC : SessionState := ⟨[], ["C?"], true, 7, "llama3.3-70b", "ALL", 10⟩

/-- Witness for Claim C9: a turn answering "fine" (no extractable question)
leaves the suggestion set untouched. -/
theorem C9_suggestions_frame_witness :
    (handleTurn (llmConst "fine") searchNone stSuggC "Q").1.suggested_questions =
      stSuggC.suggested_questions :=
  C9_suggestions_frame_on_empty_extraction (llmConst "fine") searchNone stSuggC "Q" (by decide)

/-- Claim C10: `get_document_url` is total; whenever the underlying lookup
fails, it returns the sentinel "#" together with a display-only error message,
and on success it returns the looked-up URL with no error. -/
theorem C10_document_url_total (lookup : String → Except String String) (path : String) :
    (∀ e, lookup path = Except.error e →
      get_document_url lookup path =
        ("#", some ("Error generating URL for " ++ path ++ ": " ++ e))) ∧
    (∀ u, lookup path = Except.ok u → get_document_url lookup path = (u, none)) := by
  constructor
  · intro e h
    simp [get_document_url, h]
  · intro u h
    simp [get_document_url, h]

/-- A presigned-URL lookup that always fails. -/
def failingLookup : String → Except String String := fun _ => Except.error "boom"

/-- Witness for Claim C10: the failing lookup yields "#" and a display
error. -/
theorem C10_document_url_total_witness :
    get_document_url failingLookup "doc.pdf" =
      ("#", some ("Error generating URL for " ++ "doc.pdf" ++ ": " ++ "boom")) :=
  (C10_document_url_total failingLookup "doc.pdf").1 "boom" rfl
